import Mathlib

/-!
Verification development for the QorSense v2 sensor-health dashboard
(`src/frontend-next`).  The frontend keeps its state in React `useState`
hooks; we embed that state as an explicit record and each event handler as a
pure state-transforming function.  JavaScript numbers are embedded as an
extended-rational type (`JsNum`) so that `NaN` and `±Infinity` are
representable where the code can actually produce them; arithmetic that the
code performs on ordinary in-range values is carried out on `ℚ`.
Network calls (`api.analyze`, `api.generateSynthetic`) are nondeterministic
from the frontend's point of view and are passed in as `Except`-valued
oracle arguments.
-/

namespace QorSense

/-- A JavaScript number: a finite value (embedded as a rational), `NaN`,
`+Infinity` or `-Infinity`. -/
inductive JsNum where
  | num (q : ℚ)
  | nan
  | posInf
  | negInf
  deriving DecidableEq

/-- JavaScript `isNaN` on an already-parsed number. -/
def JsNum.isNaN : JsNum → Bool
  | .nan => true
  | _ => false

/-- `Number.isFinite`: true exactly on ordinary numeric values. -/
def JsNum.isFinite : JsNum → Bool
  | .num _ => true
  | _ => false

/-- Status band of `AnalysisResult.status` (`types/index.ts`:
`"Green" | "Yellow" | "Red"`). -/
inductive Status where
  | green
  | yellow
  | red
  deriving DecidableEq

/-- `AnalysisMetrics` of `types/index.ts`. -/
structure MetricSet where
  bias : ℚ
  slope : ℚ
  noise_std : ℚ
  snr_db : ℚ
  hysteresis : ℚ
  hurst : ℚ
  hurst_r2 : ℚ
  deriving DecidableEq

/-- Threshold-violation flag codes.  `types/index.ts` keeps them as strings
(`flags: string[]`); the spec enumerates the code names, which we embed as an
inductive so membership is decidable. -/
inductive Flag where
  | slopeWarning
  | slopeCritical
  | biasWarning
  | biasCritical
  | noiseCritical
  | hysteresisCritical
  | dfaCritical
  | insufficientData
  deriving DecidableEq

/-- Whether a flag is one of the `<METRIC>_CRITICAL` codes. -/
def Flag.isCritical : Flag → Bool
  | .slopeCritical => true
  | .biasCritical => true
  | .noiseCritical => true
  | .hysteresisCritical => true
  | .dfaCritical => true
  | _ => false

/-- Whether a flag is one of the `<METRIC>_WARNING` codes. -/
def Flag.isWarning : Flag → Bool
  | .slopeWarning => true
  | .biasWarning => true
  | _ => false

/-- `AnalysisResult` of `types/index.ts`. -/
structure AnalysisResult where
  sensor_id : String
  timestamp : String
  health_score : ℚ
  status : Status
  diagnosis : String
  metrics : MetricSet
  flags : List Flag
  recommendation : String
  prediction : Option String
  deriving DecidableEq

/-- `SensorConfig` of `types/index.ts` (the spec's `AnalysisConfig`). -/
structure AnalysisConfig where
  slope_critical : ℚ
  slope_warning : ℚ
  bias_critical : ℚ
  bias_warning : ℚ
  noise_critical : ℚ
  hysteresis_critical : ℚ
  dfa_critical : ℚ
  min_data_points : ℕ
  deriving DecidableEq

/-- The default configuration hard-coded in the sidebar
(`components/Sidebar.tsx` lines 27–36); the UI offers no control that ever
calls `setConfig`, so this is the configuration of every analysis request. -/
def defaultConfig : AnalysisConfig where
  slope_critical := 1/10
  slope_warning := 5/100
  bias_critical := 2
  bias_warning := 1
  noise_critical := 3/2
  hysteresis_critical := 1/2
  dfa_critical := 8/10
  min_data_points := 50

/-- An `axios` request failure as seen by a `catch` block. -/
inductive ApiError where
  | httpError (msg : String)
  deriving DecidableEq

/-- The dashboard's React state (`app/page.tsx` lines 13–18): the `data`
series, the published `analysis`, and the live-monitor toggle `isLive`.
(`loading`, `backendStatus` and `settings` do not affect the claims.) -/
structure DashboardState where
  data : List JsNum
  analysis : Option AnalysisResult
  isLive : Bool
  deriving DecidableEq

/-- JavaScript `Array.prototype.slice(-n)`: the last `n` elements (the whole
list when it is shorter than `n`). -/
def takeLast (n : ℕ) (l : List α) : List α :=
  l.drop (l.length - n)

/-- The new sample computed by one firing of the live-monitoring interval
(`app/page.tsx` lines 26–33).  `r` stands for the `Math.random()` draw
(`0 ≤ r < 1`).  The handler computes `lastVal` and `t` and initialises
`newVal := lastVal`, but then unconditionally overwrites it with
`10 + Math.random() - 0.5`; the selected scenario `genType` is in scope in
the surrounding component but is never consulted. -/
def liveTickSample (genType : String) (data : List JsNum) (r : ℚ) : ℚ :=
  let lastVal : JsNum := if data.length > 0 then data.getLastD (.num 10) else .num 10
  let t := data.length
  let newVal := lastVal
  10 + r - 1/2

/-- `[...data, newVal].slice(-100)` (`app/page.tsx` line 35): append one
sample, keep the last 100. -/
def livePush (data : List JsNum) (v : ℚ) : List JsNum :=
  takeLast 100 (data ++ [.num v])

/-- `handleAnalyze` (`app/page.tsx` lines 66–81): a guard returns early when
the series has fewer than 50 points; otherwise `api.analyze` is awaited —
its outcome is the oracle argument `apiResult` — and on success the result is
published via `setAnalysis`; a failure is caught, logged, and leaves the
state untouched. -/
def handleAnalyze (st : DashboardState) (currentData : List JsNum)
    (apiResult : Except ApiError AnalysisResult) : DashboardState :=
  if currentData.length < 50 then st
  else
    match apiResult with
    | .ok result => { st with analysis := some result }
    | .error _ => st

/-- One firing of the live-monitoring interval (`app/page.tsx` lines 24–42):
compute a new sample, append it with capacity eviction, store the new buffer,
and call `handleAnalyze` when the new buffer has at least 50 points.  The
returned `Bool` records whether the analysis pipeline was invoked on this
tick (the guard on line 39). -/
def liveTick (genType : String) (st : DashboardState) (r : ℚ)
    (apiResult : Except ApiError AnalysisResult) : DashboardState × Bool :=
  let newVal := liveTickSample genType st.data r
  let newData := livePush st.data newVal
  let st1 : DashboardState := { st with data := newData }
  if newData.length ≥ 50 then (handleAnalyze st1 newData apiResult, true)
  else (st1, false)

/-- The `onClear` callback passed to the sidebar (`app/page.tsx` line 103):
`setData([]); setAnalysis(null)`.  It does not touch `isLive`. -/
def onClear (st : DashboardState) : DashboardState :=
  { st with data := [], analysis := none }

/-- The `disabled` attribute of the sidebar's Clear Data button
(`components/Sidebar.tsx` line 161): the button is disabled exactly while
live monitoring is running. -/
def clearButtonDisabled (isLive : Bool) : Bool :=
  isLive

/-- `handleGenerate` (`app/page.tsx` lines 52–64): await
`api.generateSynthetic` (the oracle argument); on success store the new
series and reset the analysis to `null`; on failure alert and leave the
state unchanged. -/
def handleGenerate (st : DashboardState)
    (apiData : Except ApiError (List JsNum)) : DashboardState :=
  match apiData with
  | .ok newData => { st with data := newData, analysis := none }
  | .error _ => st

/-- The `onDataLoad` callback (`app/page.tsx` lines 108–111):
`setData(newData); setAnalysis(null)`. -/
def onDataLoad (st : DashboardState) (newData : List JsNum) : DashboardState :=
  { st with data := newData, analysis := none }

/-- The value list produced by the CSV upload handler
(`components/Sidebar.tsx` lines 145–147): the file text is split on
newlines/commas, each token run through `parseFloat`, and the results
filtered with `!isNaN(v)`.  `tokens` is the list of `parseFloat` outputs;
note that `parseFloat` can yield `±Infinity` (e.g. for the token
`"Infinity"` or `"1e999"`), and `isNaN` does not reject those. -/
def csvUploadValues (tokens : List JsNum) : List JsNum :=
  tokens.filter (fun v => !v.isNaN)

/-- The CSV upload `onChange` handler's effect on the dashboard state
(`components/Sidebar.tsx` lines 138–153): when at least one value survives
the filter, `onDataLoad` is called; otherwise nothing happens. -/
def csvUpload (st : DashboardState) (tokens : List JsNum) : DashboardState :=
  let values := csvUploadValues tokens
  if values.length > 0 then onDataLoad st values else st

/-! ### The backend analysis engine, modelled from the spec

The repository's sources contain only the Next.js frontend; the backend that
serves `/analyze` (the README's `backend/analysis.py` and `models.py`) is not
under `src/`, only its caller `app/page.tsx` and the axios client are.  The
definitions below are therefore modelled from the spec (§4.1, §4.3, §6, §7);
each says so in its doc comment.  The metric engine (§4.2) is not pinned
down by any claim, so `analyze` takes it as a parameter. -/

/-- Modelled from the spec: the engine's only error kind relevant here —
`ValidationError` (§7: "too few points, non-numeric input"). -/
inductive AnalysisError where
  | validationError (msg : String)
  deriving DecidableEq

/-- Modelled from the spec (§4.1 Preprocessing/Validation, absent from
`src/`): drop NaN/±∞ entries, then fail with a `ValidationError` when the
remaining count is below `min_data_points`. -/
def preprocess (raw : List JsNum) (cfg : AnalysisConfig) :
    Except AnalysisError (List ℚ) :=
  let cleaned := raw.filterMap (fun v => match v with
    | .num q => some q
    | _ => none)
  if cleaned.length < cfg.min_data_points then
    .error (.validationError "insufficient data points")
  else
    .ok cleaned

/-- Modelled from the spec (§4.3): the threshold-violation flags.  A metric
at or beyond its critical threshold adds `<METRIC>_CRITICAL`; between
warning and critical it adds `<METRIC>_WARNING` (the config carries warning
thresholds only for slope and bias); the DFA flag is keyed on
`|hurst − 0.5|` against `dfa_critical`. -/
def computeFlags (m : MetricSet) (cfg : AnalysisConfig) : List Flag :=
  (if |m.slope| ≥ cfg.slope_critical then [Flag.slopeCritical]
   else if |m.slope| ≥ cfg.slope_warning then [Flag.slopeWarning]
   else [])
  ++ (if |m.bias| ≥ cfg.bias_critical then [Flag.biasCritical]
      else if |m.bias| ≥ cfg.bias_warning then [Flag.biasWarning]
      else [])
  ++ (if m.noise_std ≥ cfg.noise_critical then [Flag.noiseCritical] else [])
  ++ (if m.hysteresis ≥ cfg.hysteresis_critical then [Flag.hysteresisCritical]
      else [])
  ++ (if |m.hurst - 1/2| ≥ cfg.dfa_critical then [Flag.dfaCritical] else [])

/-- Modelled from the spec (§4.3): per-metric penalty — 0 below the warning
threshold, a linear ramp from warning to critical, a capped plateau at and
above critical.  For metrics with no configured warning threshold the ramp
degenerates (`warn = crit`). -/
def penalty (v warn crit cap : ℚ) : ℚ :=
  if v ≥ crit then cap
  else if v ≥ warn then cap * (v - warn) / (crit - warn)
  else 0

/-- Modelled from the spec (§4.3): `health_score = clamp(100 − Σ penalties,
0, 100)`; the per-metric caps are illustrative (the spec fixes only the
shape). -/
def healthScore (m : MetricSet) (cfg : AnalysisConfig) : ℚ :=
  let total :=
    penalty |m.slope| cfg.slope_warning cfg.slope_critical 30
    + penalty |m.bias| cfg.bias_warning cfg.bias_critical 25
    + penalty m.noise_std cfg.noise_critical cfg.noise_critical 20
    + penalty m.hysteresis cfg.hysteresis_critical cfg.hysteresis_critical 15
    + penalty |m.hurst - 1/2| cfg.dfa_critical cfg.dfa_critical 10
  max 0 (min 100 (100 - total))

/-- Modelled from the spec (§4.3): Red when any `_CRITICAL` flag is present
or the health score is below 50; Yellow when any `_WARNING` flag is present
or the score is below 80; Green otherwise. -/
def computeStatus (flags : List Flag) (score : ℚ) : Status :=
  if flags.any Flag.isCritical ∨ score < 50 then .red
  else if flags.any Flag.isWarning ∨ score < 80 then .yellow
  else .green

/-- Modelled from the spec (§6 Analyze): validate and preprocess the raw
series, run the metric engine, and assemble the result via the scoring
stage.  The metric engine (§4.2) and the templated diagnosis /
recommendation / prediction text are not constrained by any claim and are
taken as parameters. -/
def analyze (engine : List ℚ → MetricSet)
    (narrate : Status → List Flag → String × String × Option String)
    (sid ts : String) (raw : List JsNum) (cfg : AnalysisConfig) :
    Except AnalysisError AnalysisResult :=
  match preprocess raw cfg with
  | .error e => .error e
  | .ok values =>
      let m := engine values
      let flags := computeFlags m cfg
      let score := healthScore m cfg
      let status := computeStatus flags score
      let texts := narrate status flags
      .ok { sensor_id := sid, timestamp := ts, health_score := score,
            status := status, diagnosis := texts.1, metrics := m,
            flags := flags, recommendation := texts.2.1,
            prediction := texts.2.2 }

/-- A concrete analysis result, used to instantiate the oracle arguments of
the frontend handlers in concrete evaluations. -/
def sampleResult : AnalysisResult where
  sensor_id := "SENSOR-001"
  timestamp := "t0"
  health_score := 95
  status := .green
  diagnosis := "nominal"
  metrics := { bias := 0, slope := 0, noise_std := 0, snr_db := 100,
               hysteresis := 0, hurst := 1/2, hurst_r2 := 0 }
  flags := []
  recommendation := "none"
  prediction := none

/-! ### Helper lemmas -/

/-- Whatever the analysis oracle returns, a live tick stores exactly the
pushed buffer. -/
theorem liveTick_fst_data (g : String) (st : DashboardState) (r : ℚ)
    (api : Except ApiError AnalysisResult) :
    (liveTick g st r api).1.data = livePush st.data (liveTickSample g st.data r) := by
  unfold liveTick handleAnalyze
  dsimp only
  split
  · split
    · rfl
    · cases api <;> rfl
  · rfl

/-- A live tick never touches the `isLive` toggle. -/
theorem liveTick_fst_isLive (g : String) (st : DashboardState) (r : ℚ)
    (api : Except ApiError AnalysisResult) :
    (liveTick g st r api).1.isLive = st.isLive := by
  unfold liveTick handleAnalyze
  dsimp only
  split
  · split
    · rfl
    · cases api <;> rfl
  · rfl

/-- Length of the bounded push: one sample is appended, then the buffer is
clipped to the last 100. -/
theorem livePush_length (data : List JsNum) (v : ℚ) :
    (livePush data v).length = min (data.length + 1) 100 := by
  simp only [livePush, takeLast, List.length_drop, List.length_append,
    List.length_singleton]
  omega

/-- The live tick's invocation flag is true exactly when the post-append
buffer reaches 50 samples. -/
theorem liveTick_snd_iff (g : String) (st : DashboardState) (r : ℚ)
    (api : Except ApiError AnalysisResult) :
    (liveTick g st r api).2 = true ↔ 50 ≤ min (st.data.length + 1) 100 := by
  unfold liveTick
  dsimp only
  split
  · next hcond =>
      simp only [true_iff]
      rw [livePush_length] at hcond
      omega
  · next hcond =>
      simp only [Bool.false_eq_true, false_iff]
      rw [livePush_length] at hcond
      omega

/-- Pushing onto a full buffer drops exactly the oldest sample and keeps the
rest in order. -/
theorem livePush_full (data : List JsNum) (v : ℚ) (h : data.length = 100) :
    livePush data v = data.tail ++ [.num v] := by
  unfold livePush takeLast
  rw [List.length_append, List.length_singleton, h]
  rw [show (100 + 1 - 100 : ℕ) = 1 from rfl]
  rw [List.drop_append_of_le_length (by omega), List.drop_one]

/-! ### Claim theorems -/

/-- C2: the Live Monitor buffer is a bounded FIFO of fixed capacity 100 —
after every tick's append the buffer holds at most 100 samples; when a tick
fires with a full buffer, exactly the oldest sample is evicted and the
order of the remaining samples is preserved; an explicit Clear resets the
buffer to empty. -/
theorem live_buffer_bounded_fifo (g : String) (st : DashboardState) (r : ℚ)
    (api : Except ApiError AnalysisResult) :
    (liveTick g st r api).1.data.length ≤ 100
    ∧ (st.data.length = 100 →
        (liveTick g st r api).1.data
          = st.data.tail ++ [JsNum.num (liveTickSample g st.data r)])
    ∧ (onClear st).data = [] := by
  refine ⟨?_, ?_, rfl⟩
  · rw [liveTick_fst_data, livePush_length]
    omega
  · intro h
    rw [liveTick_fst_data, livePush_full st.data _ h]

/-- C2 witness: a tick on a concrete full buffer evicts exactly the oldest
sample. -/
theorem live_buffer_bounded_fifo_witness :
    (liveTick "Normal" ⟨List.replicate 100 (.num 10), none, true⟩ 0
        (.error (.httpError "down"))).1.data
      = (List.replicate 100 (JsNum.num 10)).tail
        ++ [JsNum.num (liveTickSample "Normal" (List.replicate 100 (.num 10)) 0)] :=
  (live_buffer_bounded_fifo "Normal" ⟨List.replicate 100 (.num 10), none, true⟩ 0
    (.error (.httpError "down"))).2.1 (by simp)

/-- C3: while running, every tick appends exactly one new sample (clipping
the buffer at 100), and the analysis pipeline is invoked on that tick iff
the new buffer holds at least `min_data_points` (= 50) samples — on success
the tick publishes the analysis result, and a tick that does not invoke the
pipeline never publishes one. -/
theorem live_tick_analysis_gate (g : String) (st : DashboardState) (r : ℚ)
    (api : Except ApiError AnalysisResult) :
    (liveTick g st r api).1.data.length = min (st.data.length + 1) 100
    ∧ (liveTick g st r api).1.data.getLast?
        = some (.num (liveTickSample g st.data r))
    ∧ ((liveTick g st r api).2 = true ↔
        defaultConfig.min_data_points ≤ (liveTick g st r api).1.data.length)
    ∧ (∀ res, api = .ok res → (liveTick g st r api).2 = true →
        (liveTick g st r api).1.analysis = some res)
    ∧ ((liveTick g st r api).2 = false →
        (liveTick g st r api).1.analysis = st.analysis) := by
  have hdata := liveTick_fst_data g st r api
  have hlen := livePush_length st.data (liveTickSample g st.data r)
  refine ⟨by rw [hdata, hlen], ?_, ?_, ?_, ?_⟩
  · rw [hdata]
    unfold livePush takeLast
    rw [List.drop_append_of_le_length
      (by simp only [List.length_append, List.length_singleton]; omega)]
    exact List.getLast?_concat _
  · rw [hdata, hlen]
    show (liveTick g st r api).2 = true ↔ 50 ≤ min (st.data.length + 1) 100
    exact liveTick_snd_iff g st r api
  · intro res hres
    subst hres
    unfold liveTick handleAnalyze
    dsimp only
    split
    · next hcond =>
      intro _
      rw [if_neg (by omega)]
    · intro hfalse
      exact absurd hfalse (by simp)
  · unfold liveTick handleAnalyze
    dsimp only
    split
    · intro hfalse
      exact absurd hfalse (by simp)
    · intro _
      rfl

/-- C3 witness: with 49 buffered samples a tick reaches the 50-point
threshold and publishes the successful analysis result. -/
theorem live_tick_analysis_gate_witness :
    (liveTick "Normal" ⟨List.replicate 49 (.num 10), none, true⟩ 0
        (.ok sampleResult)).1.analysis = some sampleResult :=
  (live_tick_analysis_gate "Normal" ⟨List.replicate 49 (.num 10), none, true⟩ 0
    (.ok sampleResult)).2.2.2.1 sampleResult rfl (by decide)

/-- C5 (code evaluated at the failing input): the live tick's sample is the
fixed `Normal`-style value `10 + random − 0.5` for every selected scenario
and every buffer — the `genType` selection never reaches the sample
computation. -/
theorem live_sample_ignores_scenario (g₁ g₂ : String) (d₁ d₂ : List JsNum)
    (r : ℚ) :
    liveTickSample g₁ d₁ r = liveTickSample g₂ d₂ r
    ∧ liveTickSample g₁ d₁ r = 10 + r - 1/2 :=
  ⟨rfl, rfl⟩

/-- C7: a live tick whose analysis call fails is non-fatal — no result is
published (the previous one is kept), the buffer still holds the appended
data, the monitor keeps running, and the next tick re-invokes the analysis
once the buffer is large enough. -/
theorem live_tick_error_nonfatal (g : String) (st : DashboardState) (r : ℚ)
    (e : ApiError) :
    (liveTick g st r (.error e)).1.analysis = st.analysis
    ∧ (liveTick g st r (.error e)).1.data
        = livePush st.data (liveTickSample g st.data r)
    ∧ (liveTick g st r (.error e)).1.isLive = st.isLive
    ∧ (∀ (r₂ : ℚ) (api₂ : Except ApiError AnalysisResult),
        49 ≤ st.data.length →
          (liveTick g (liveTick g st r (.error e)).1 r₂ api₂).2 = true) := by
  refine ⟨?_, liveTick_fst_data g st r (.error e),
    liveTick_fst_isLive g st r (.error e), ?_⟩
  · unfold liveTick handleAnalyze
    dsimp only
    split
    · split <;> rfl
    · rfl
  · intro r₂ api₂ hlen
    rw [liveTick_snd_iff, liveTick_fst_data, livePush_length]
    omega

/-- C7 witness: at a concrete 49-sample buffer, a failed tick leaves the
previous result in place and the following tick invokes the analysis. -/
theorem live_tick_error_nonfatal_witness :
    (liveTick "Normal" ⟨List.replicate 49 (.num 10), some sampleResult, true⟩ 0
        (.error (.httpError "down"))).1.analysis = some sampleResult
    ∧ (liveTick "Normal"
        (liveTick "Normal" ⟨List.replicate 49 (.num 10), some sampleResult, true⟩ 0
          (.error (.httpError "down"))).1 0 (.error (.httpError "down"))).2 = true :=
  ⟨(live_tick_error_nonfatal "Normal"
      ⟨List.replicate 49 (.num 10), some sampleResult, true⟩ 0
      (.httpError "down")).1,
   (live_tick_error_nonfatal "Normal"
      ⟨List.replicate 49 (.num 10), some sampleResult, true⟩ 0
      (.httpError "down")).2.2.2 0 (.error (.httpError "down")) (by simp)⟩

/-- C9: every sample appended by a live tick lies in `[9.5, 10.5)`,
independent of the buffer contents and the selected scenario: the live feed
is a fixed baseline of 10 plus bounded uniform noise. -/
theorem live_sample_in_range (g : String) (data : List JsNum) (r : ℚ)
    (h0 : 0 ≤ r) (h1 : r < 1) :
    19/2 ≤ liveTickSample g data r ∧ liveTickSample g data r < 21/2 := by
  unfold liveTickSample
  dsimp only
  constructor <;> linarith

/-- C9 witness: the sample at a concrete random draw lies in the band. -/
theorem live_sample_in_range_witness :
    19/2 ≤ liveTickSample "Drifting" [JsNum.num 3] (1/2)
    ∧ liveTickSample "Drifting" [JsNum.num 3] (1/2) < 21/2 :=
  live_sample_in_range "Drifting" [JsNum.num 3] (1/2) (by norm_num) (by norm_num)

/-- C8 counterexample: the Clear transition is not available from every
Live Monitor state — the sidebar's Clear Data button is disabled exactly
while the monitor is Running. -/
theorem clear_unavailable_while_running :
    ¬ (∀ live : Bool, clearButtonDisabled live = false) := by
  intro h
  exact absurd (h true) (by decide)

/-- C8 (amended): Clear is available exactly in the Idle state (the button
is disabled while Running); when invoked it empties the buffer and discards
the last analysis result, and it leaves the running toggle unchanged — so
the monitor, which had to be Idle for Clear to be available, stays Idle. -/
theorem clear_only_from_idle (st : DashboardState) :
    (clearButtonDisabled st.isLive = false ↔ st.isLive = false)
    ∧ (onClear st).data = []
    ∧ (onClear st).analysis = none
    ∧ (onClear st).isLive = st.isLive := by
  refine ⟨?_, rfl, rfl, rfl⟩
  unfold clearButtonDisabled
  exact Iff.rfl

/-- C10: loading a new series — generating synthetic data or loading a CSV
through the sidebar — stores the new series and resets the published
analysis to `null`; a CSV upload whose parse yields no numeric values
leaves the state (series and result) unchanged. -/
theorem load_resets_analysis (st : DashboardState) (newData tokens : List JsNum) :
    (handleGenerate st (.ok newData)).analysis = none
    ∧ (handleGenerate st (.ok newData)).data = newData
    ∧ (onDataLoad st newData).analysis = none
    ∧ (onDataLoad st newData).data = newData
    ∧ (csvUploadValues tokens = [] → csvUpload st tokens = st)
    ∧ (csvUploadValues tokens ≠ [] →
        (csvUpload st tokens).analysis = none
        ∧ (csvUpload st tokens).data = csvUploadValues tokens) := by
  refine ⟨rfl, rfl, rfl, rfl, ?_, ?_⟩
  · intro h
    unfold csvUpload
    rw [h]
    rfl
  · intro h
    unfold csvUpload
    rw [if_pos (by cases hv : csvUploadValues tokens with
      | nil => exact absurd hv h
      | cons a l => simp [hv])]
    exact ⟨rfl, rfl⟩

/-- C10 witness: a concrete CSV parse of only non-numeric tokens leaves a
concrete state with a published result untouched, and a parse with one
numeric value resets the published result. -/
theorem load_resets_analysis_witness :
    csvUpload ⟨[JsNum.num 7], some sampleResult, false⟩ [JsNum.nan]
      = ⟨[JsNum.num 7], some sampleResult, false⟩
    ∧ (csvUpload ⟨[JsNum.num 7], some sampleResult, false⟩ [JsNum.num 2]).analysis
      = none :=
  ⟨(load_resets_analysis ⟨[JsNum.num 7], some sampleResult, false⟩ [] [JsNum.nan]).2.2.2.2.1
    rfl,
   ((load_resets_analysis ⟨[JsNum.num 7], some sampleResult, false⟩ [] [JsNum.num 2]).2.2.2.2.2
    (by decide)).1⟩

/-- C6 counterexample: the CSV preprocessing in the sidebar does not remove
every non-finite entry — `+Infinity` (as produced by `parseFloat` on a
token like `"Infinity"` or `"1e999"`) passes the `!isNaN` filter. -/
theorem csv_filter_keeps_infinity :
    ¬ (∀ tokens : List JsNum, ∀ v ∈ csvUploadValues tokens, v.isFinite = true) := by
  intro h
  exact absurd (h [JsNum.posInf] JsNum.posInf (by decide)) (by decide)

/-- C6 (amended): the CSV preprocessing removes exactly the NaN entries —
no retained value is NaN, the retained sequence is a subsequence of the
input (order preserved), and every non-NaN input value, in particular every
finite one, is retained; `±Infinity` entries are however retained as well. -/
theorem csv_filter_drops_only_nan (tokens : List JsNum) :
    (∀ v ∈ csvUploadValues tokens, v.isNaN = false)
    ∧ List.Sublist (csvUploadValues tokens) tokens
    ∧ (∀ v ∈ tokens, v.isNaN = false → v ∈ csvUploadValues tokens)
    ∧ (∀ v ∈ tokens, v.isFinite = true → v ∈ csvUploadValues tokens) := by
  refine ⟨?_, List.filter_sublist tokens, ?_, ?_⟩
  · intro v hv
    have := (List.mem_filter.mp hv).2
    simpa using this
  · intro v hv hnan
    exact List.mem_filter.mpr ⟨hv, by simp [hnan]⟩
  · intro v hv hfin
    refine List.mem_filter.mpr ⟨hv, ?_⟩
    cases v <;> simp_all [JsNum.isFinite, JsNum.isNaN]

/-- C6 witness: on a concrete token list, the finite value is retained. -/
theorem csv_filter_drops_only_nan_witness :
    JsNum.num 3 ∈ csvUploadValues [JsNum.num 3, JsNum.nan, JsNum.posInf] :=
  (csv_filter_drops_only_nan [JsNum.num 3, JsNum.nan, JsNum.posInf]).2.2.2
    (JsNum.num 3) (by decide) (by decide)

/-- C1: for every input series shorter than `min_data_points`, the Analyze
operation fails with the same `ValidationError` every time and produces no
(partial) result; the frontend guard likewise returns without publishing
anything when the series has fewer than 50 points. -/
theorem analyze_short_series_fails (engine : List ℚ → MetricSet)
    (narrate : Status → List Flag → String × String × Option String)
    (sid ts : String) (raw : List JsNum) (cfg : AnalysisConfig)
    (h : raw.length < cfg.min_data_points) :
    analyze engine narrate sid ts raw cfg
      = .error (.validationError "insufficient data points")
    ∧ (∀ (st : DashboardState) (currentData : List JsNum)
        (api : Except ApiError AnalysisResult), currentData.length < 50 →
          handleAnalyze st currentData api = st) := by
  constructor
  · have hclean : (raw.filterMap (fun v => match v with
        | JsNum.num q => some q
        | _ => none)).length < cfg.min_data_points :=
      lt_of_le_of_lt (List.length_filterMap_le _ _) h
    unfold analyze preprocess
    dsimp only
    rw [if_pos hclean]
  · intro st currentData api hlt
    unfold handleAnalyze
    rw [if_pos hlt]

/-- C1 witness: a concrete 1-point series fails validation under the
default configuration (for an arbitrary concrete metric engine), and the
frontend guard returns the state unchanged on a concrete short series. -/
theorem analyze_short_series_fails_witness :
    analyze (fun _ => sampleResult.metrics) (fun _ _ => ("", "", none))
        "SENSOR-001" "t0" [JsNum.num 1] defaultConfig
      = .error (.validationError "insufficient data points")
    ∧ handleAnalyze ⟨[], none, false⟩ [JsNum.num 1] (.ok sampleResult)
      = ⟨[], none, false⟩ :=
  ⟨(analyze_short_series_fails (fun _ => sampleResult.metrics)
      (fun _ _ => ("", "", none)) "SENSOR-001" "t0" [JsNum.num 1] defaultConfig
      (by decide)).1,
   (analyze_short_series_fails (fun _ => sampleResult.metrics)
      (fun _ _ => ("", "", none)) "SENSOR-001" "t0" [JsNum.num 1] defaultConfig
      (by decide)).2 ⟨[], none, false⟩ [JsNum.num 1] (.ok sampleResult)
      (by decide)⟩

/-- C4: for every metric set and configuration, if any single metric is at
or beyond its critical threshold then the corresponding `_CRITICAL` flag is
raised and the resulting status is Red, independent of every other metric's
value. -/
theorem critical_flag_forces_red (m : MetricSet) (cfg : AnalysisConfig)
    (h : cfg.slope_critical ≤ |m.slope| ∨ cfg.bias_critical ≤ |m.bias|
        ∨ cfg.noise_critical ≤ m.noise_std
        ∨ cfg.hysteresis_critical ≤ m.hysteresis
        ∨ cfg.dfa_critical ≤ |m.hurst - 1/2|) :
    (computeFlags m cfg).any Flag.isCritical = true
    ∧ computeStatus (computeFlags m cfg) (healthScore m cfg) = .red := by
  have hflag : (computeFlags m cfg).any Flag.isCritical = true := by
    unfold computeFlags
    rcases h with h | h | h | h | h <;>
      rw [if_pos h] <;> simp [Flag.isCritical]
  refine ⟨hflag, ?_⟩
  unfold computeStatus
  rw [if_pos (Or.inl hflag)]

/-- C4 witness: a concrete metric set whose slope alone is critical gets a
Red status under the default configuration, whatever the other (nominal)
metrics are. -/
theorem critical_flag_forces_red_witness :
    computeStatus
        (computeFlags
          { bias := 0, slope := 1, noise_std := 0, snr_db := 100,
            hysteresis := 0, hurst := 1/2, hurst_r2 := 0 } defaultConfig)
        (healthScore
          { bias := 0, slope := 1, noise_std := 0, snr_db := 100,
            hysteresis := 0, hurst := 1/2, hurst_r2 := 0 } defaultConfig)
      = .red :=
  (critical_flag_forces_red
    { bias := 0, slope := 1, noise_std := 0, snr_db := 100,
      hysteresis := 0, hurst := 1/2, hurst_r2 := 0 } defaultConfig
    (Or.inl (by norm_num [defaultConfig]))).2

end QorSense
